import Mathlib

/-!
Shallow embedding of the `ai-python-starter-template` repository:
the HTTP client wrapper `ExampleService` (src/ai_starter/services/example_service.py)
and the CLI dispatcher (src/ai_starter/main.py).

Modelling conventions:
- The network is an oracle: a call to `requests.Session.get` either yields a
  `Response` (status code, headers, reason phrase, raw body) or raises a
  transport-level `requests.RequestException` that carries no response
  (`e.response is None`), which is what `requests` produces for connection
  and timeout failures.
- `Response.raise_for_status` follows the `requests` library: it raises an
  `HTTPError` (carrying the response) exactly when `400 <= status_code < 600`,
  with message `"<code> Client Error: <reason> for url: <url>"` for 4xx and
  `"<code> Server Error: <reason> for url: <url>"` for 5xx.
- A `requests.Response` is truthy exactly when `status_code < 400`
  (`Response.__bool__` returns `self.ok`); `RequestException` always has a
  `response` attribute (possibly `None`).
- `response.json()` is modelled by an arbitrary decoding function
  `decode : String → α` applied to the raw body; the embedding is polymorphic
  in the decoder, so theorems quantify over every possible JSON decoding.
- Python `str` operations (`strip`, `lower`, `isdigit`) are modelled on the
  ASCII range, which covers every literal the CLI contract speaks about.
- Python `float` of a digits-with-one-dot literal is modelled by the exact
  decimal rational the literal denotes; the spec's claims are about which
  coercion branch fires and the denoted value, not IEEE rounding.
-/

deriving instance DecidableEq for Except

namespace AIStarter

/-- Characters removed by Python `str.strip()` with no argument (ASCII range). -/
def isPySpace (c : Char) : Bool :=
  c = ' ' || c = '\t' || c = '\n' || c = '\x0d' || c = '\x0b' || c = '\x0c'

/-- Python `str.strip()` on the character list: drop whitespace at both ends. -/
def stripChars (l : List Char) : List Char :=
  ((l.dropWhile isPySpace).reverse.dropWhile isPySpace).reverse

/-- Python `str.strip()`. -/
def pyStrip (s : String) : String :=
  String.mk (stripChars s.toList)

/-- Python `str.lower()` (ASCII range). -/
def pyLower (s : String) : String :=
  String.mk (s.toList.map Char.toLower)

/-- Python `str.isdigit()` (ASCII range): non-empty and every character a digit. -/
def isDigitStr (s : String) : Bool :=
  !s.toList.isEmpty && s.toList.all Char.isDigit

/-- Python `str.rstrip(c)` for a single character: drop every trailing `c`. -/
def pyRstripChar (s : String) (c : Char) : String :=
  String.mk ((s.toList.reverse.dropWhile (fun d => d = c)).reverse)

/-- Numeric value of an all-digit string, as Python `int(...)` computes it. -/
def digitsToNat (l : List Char) : Nat :=
  l.foldl (fun a c => a * 10 + (c.toNat - 48)) 0

/-- Python `int(value)` on an all-digit string. -/
def pyInt (s : String) : Nat :=
  digitsToNat s.toList

/-- Python `float(value)` on a string made of digits and exactly one dot,
modelled as the exact decimal rational the literal denotes. -/
def pyFloat (s : String) : ℚ :=
  let ds := s.toList
  let fracLen := (ds.reverse.takeWhile (fun c => c ≠ '.')).length
  (digitsToNat (ds.filter (fun c => c ≠ '.')) : ℚ) / (10 : ℚ) ^ fracLen

/-- Python `value.replace(".", "")`. -/
def removeDots (s : String) : String :=
  String.mk (s.toList.filter (fun c => c ≠ '.'))

/-- Python `value.count(".")`. -/
def countDots (s : String) : Nat :=
  s.toList.count '.'

/-- The HTTP client wrapper state: `ExampleService.__init__` stores the base
URL (trailing slashes stripped) and the timeout. The owned `requests.Session`
and its default headers do not influence any value the claims speak about. -/
structure ExampleService where
  base_url : String
  timeout : Int
deriving DecidableEq

/-- `ExampleService.__init__(base_url, timeout)`: stores
`base_url.rstrip('/')` and `timeout` unchanged (no validation). -/
def ExampleService.make (base_url : String) (timeout : Int) : ExampleService :=
  { base_url := pyRstripChar base_url '/', timeout := timeout }

/-- The Python default for the `timeout` parameter of `__init__`. -/
def defaultTimeout : Int := 30

/-- `ExampleService(base_url)` with the default timeout. -/
def ExampleService.makeDefault (base_url : String) : ExampleService :=
  ExampleService.make base_url defaultTimeout

/-- The URL both `ping` and `get_with_params` request:
`f"{self.base_url}/get"`. -/
def requestUrl (svc : ExampleService) : String :=
  svc.base_url ++ "/get"

/-- An HTTP response as `requests` delivers it: status code, headers, the
reason phrase of the status line, and the raw body bytes. -/
structure Response where
  status_code : Nat
  headers : List (String × String)
  reason : String
  body : String
deriving DecidableEq

/-- Truthiness of a `requests.Response`: `__bool__` returns `self.ok`,
which is `status_code < 400`. -/
def Response.isTruthy (r : Response) : Bool :=
  decide (r.status_code < 400)

/-- Message of the `HTTPError` that `raise_for_status` raises for a
status code in `[400, 600)`. -/
def httpErrorMessage (r : Response) (url : String) : String :=
  if r.status_code < 500 then
    toString r.status_code ++ " Client Error: " ++ r.reason ++ " for url: " ++ url
  else
    toString r.status_code ++ " Server Error: " ++ r.reason ++ " for url: " ++ url

/-- Outcome of one `self.session.get(...)` call: either a response, or a
transport-level `RequestException` (connection error, timeout, ...) whose
`response` attribute is `None`. -/
inductive GetOutcome where
  | response (r : Response)
  | transportError (cause : String)
deriving DecidableEq

/-- The result envelope `ping` returns (a Python dict with exactly these
four keys). -/
structure PingEnvelope where
  status : Option Nat
  headers : List (String × String)
  success : Bool
  message : String
deriving DecidableEq

/-- `ExampleService.ping`: GET `{base_url}/get`, `raise_for_status`, and on
success return `{status, headers, success: True, message: "Successfully
connected to <url>"}`. Any `RequestException` is caught and turned into a
failure envelope whose `status` is `getattr(e.response, 'status_code', None)`
(`None` when `e.response is None`) and whose `headers` is
`dict(e.response.headers)` only when `e.response` is truthy — a 4xx/5xx
response is falsy, so the `HTTPError` branch yields empty headers. -/
def ping (svc : ExampleService) (outcome : GetOutcome) : PingEnvelope :=
  let url := requestUrl svc
  match outcome with
  | GetOutcome.transportError cause =>
    { status := none
      headers := []
      success := false
      message := "Connection to " ++ url ++ " failed: " ++ cause }
  | GetOutcome.response r =>
    if 400 ≤ r.status_code ∧ r.status_code < 600 then
      { status := some r.status_code
        headers := if r.isTruthy then r.headers else []
        success := false
        message := "Connection to " ++ url ++ " failed: " ++ httpErrorMessage r url }
    else
      { status := some r.status_code
        headers := r.headers
        success := true
        message := "Successfully connected to " ++ url }

/-- A typed query-parameter value as `parse_params` produces it. -/
inductive ParamValue where
  | boolean (b : Bool)
  | int (n : Nat)
  | float (q : ℚ)
  | str (s : String)
deriving DecidableEq

/-- Python dict assignment `d[k] = v` on an insertion-ordered association
list: overwrite in place if the key exists, else append. -/
def dictInsert (d : List (String × ParamValue)) (k : String) (v : ParamValue) :
    List (String × ParamValue) :=
  match d with
  | [] => [(k, v)]
  | (k0, v0) :: rest =>
    if k0 = k then (k0, v) :: rest else (k0, v0) :: dictInsert rest k v

/-- `ExampleService.get_with_params`: GET `{base_url}/get` with the given
query parameters, `raise_for_status`, then return `response.json()`.
Any `RequestException` is re-raised as
`RequestException(f"GET request to {url} failed: {e}")`. The query
parameters are part of the issued request (absorbed by the `outcome`
oracle) and do not influence the result computation. -/
def get_with_params {α : Type} (svc : ExampleService) (decode : String → α)
    (params : Option (List (String × ParamValue))) (outcome : GetOutcome) :
    Except String α :=
  let url := requestUrl svc
  match outcome with
  | GetOutcome.transportError cause =>
    Except.error ("GET request to " ++ url ++ " failed: " ++ cause)
  | GetOutcome.response r =>
    if 400 ≤ r.status_code ∧ r.status_code < 600 then
      Except.error ("GET request to " ++ url ++ " failed: " ++ httpErrorMessage r url)
    else
      Except.ok (decode r.body)

/-- Python `param.split("=", 1)` restricted to the part after the first
`'='`: returns the characters before and after the first `'='`. Only used
on inputs that contain an `'='`. -/
def splitOnFirstEq : List Char → List Char × List Char
  | [] => ([], [])
  | c :: rest =>
    if c = '=' then ([], rest)
    else
      let p := splitOnFirstEq rest
      (c :: p.1, p.2)

/-- The type-coercion cascade of `parse_params` for one (already stripped)
value: boolean for `"true"`/`"false"` case-insensitively, else integer for
all-digit strings, else float for digits with exactly one dot, else the
string itself. -/
def coerceValue (value : String) : ParamValue :=
  if pyLower value = "true" || pyLower value = "false" then
    ParamValue.boolean (pyLower value = "true")
  else if isDigitStr value then
    ParamValue.int (pyInt value)
  else if isDigitStr (removeDots value) && countDots value = 1 then
    ParamValue.float (pyFloat value)
  else
    ParamValue.str value

/-- One iteration of the `parse_params` loop body on token `param` with the
accumulated dict `acc`: reject tokens without `'='`, split on the first
`'='`, strip both sides, reject empty keys, then coerce and assign. -/
def parseParam (acc : List (String × ParamValue)) (param : String) :
    Except String (List (String × ParamValue)) :=
  if !param.toList.contains '=' then
    Except.error ("Invalid parameter format: " ++ param ++ ". Expected \x27key=value\x27")
  else
    let p := splitOnFirstEq param.toList
    let key := pyStrip (String.mk p.1)
    let value := pyStrip (String.mk p.2)
    if key = "" then
      Except.error ("Empty key in parameter: " ++ param)
    else
      Except.ok (dictInsert acc key (coerceValue value))

/-- The `for param in params_list` loop of `parse_params`, threading the
accumulated dict and propagating the first `ValueError`. -/
def parseParamsLoop (acc : List (String × ParamValue)) :
    List String → Except String (List (String × ParamValue))
  | [] => Except.ok acc
  | p :: rest =>
    match parseParam acc p with
    | Except.error e => Except.error e
    | Except.ok acc2 => parseParamsLoop acc2 rest

/-- `parse_params(params_list)`: an empty (or absent) list yields the empty
dict; otherwise each `key=value` token is parsed in order. -/
def parse_params (params_list : List String) :
    Except String (List (String × ParamValue)) :=
  parseParamsLoop [] params_list

/-- `handle_ping_command`: runs `ping`, prints the envelope, and returns 0
exactly when `result.get("success", False)` is true, else 1. -/
def handle_ping_command (svc : ExampleService) (outcome : GetOutcome) : Nat :=
  let result := ping svc outcome
  if result.success then 0 else 1

/-- `handle_get_command`: calls `get_with_params(params if params else None)`,
prints the JSON on success and returns 0; any exception yields 1. -/
def handle_get_command {α : Type} (svc : ExampleService) (decode : String → α)
    (params : List (String × ParamValue)) (outcome : GetOutcome) : Nat :=
  match get_with_params svc decode (if params = [] then none else some params) outcome with
  | Except.ok _ => 0
  | Except.error _ => 1

/-- The `get` branch of `main`: parse the `--params` tokens; a `ValueError`
is reported with exit code 1 before the service is invoked; otherwise run
`handle_get_command`. The second component records whether
`get_with_params` was invoked. -/
def dispatchGet {α : Type} (svc : ExampleService) (decode : String → α)
    (tokens : List String) (outcome : GetOutcome) : Nat × Bool :=
  match parse_params tokens with
  | Except.error _ => (1, false)
  | Except.ok params => (handle_get_command svc decode params outcome, true)

/-- The subcommand selected on the command line (`args.command`). -/
inductive Command where
  | noCommand
  | pingCmd
  | getCmd (tokens : List String)
deriving DecidableEq

/-- Top-level control events of `main`: the body runs to completion, or a
`KeyboardInterrupt` reaches the outer handler, or some other uncaught
exception does. -/
inductive TopLevelEvent where
  | completes
  | interrupt
  | failure (msg : String)
deriving DecidableEq

/-- `main()`: `KeyboardInterrupt` yields 130 and any other uncaught
exception yields 1; otherwise no subcommand prints help and returns 1,
`ping` returns `handle_ping_command`, and `get` parses the tokens and
dispatches. -/
def main {α : Type} (ev : TopLevelEvent) (svc : ExampleService)
    (decode : String → α) (cmd : Command) (outcome : GetOutcome) : Nat :=
  match ev with
  | TopLevelEvent.interrupt => 130
  | TopLevelEvent.failure _ => 1
  | TopLevelEvent.completes =>
    match cmd with
    | Command.noCommand => 1
    | Command.pingCmd => handle_ping_command svc outcome
    | Command.getCmd tokens => (dispatchGet svc decode tokens outcome).1

/-- The outcomes of one GET on which `raise_for_status` or the transport
raises a `RequestException`: a transport error, or a response whose status
code lies in `[400, 600)`. -/
def requestFails : GetOutcome → Prop
  | GetOutcome.response r => 400 ≤ r.status_code ∧ r.status_code < 600
  | GetOutcome.transportError _ => True

/-- The value of `getattr(e.response, 'status_code', None)` for the caught
exception: the status code when a response is attached, else `None`. -/
def outcomeStatus : GetOutcome → Option Nat
  | GetOutcome.response r => some r.status_code
  | GetOutcome.transportError _ => none

/-- The value of `str(e)` for the `RequestException` the GET raises: the
transport cause, or the `HTTPError` message of `raise_for_status`. -/
def outcomeCause (svc : ExampleService) : GetOutcome → String
  | GetOutcome.response r => httpErrorMessage r (requestUrl svc)
  | GetOutcome.transportError cause => cause

/-- A `--params` token that `parse_params` rejects: it has no `'='`, or its
key is empty after stripping. -/
def malformedToken (t : String) : Prop :=
  t.toList.contains '=' = false ∨
  pyStrip (String.mk (splitOnFirstEq t.toList).1) = ""

/-!
Helper lemmas shared by the claim theorems.
-/

theorem isTruthy_eq_false_of_ge {r : Response} (h : 400 ≤ r.status_code) :
    r.isTruthy = false := by
  simp only [Response.isTruthy, decide_eq_false_iff_not, not_lt]
  omega

theorem ping_response_ok (svc : ExampleService) (r : Response)
    (h : ¬(400 ≤ r.status_code ∧ r.status_code < 600)) :
    ping svc (GetOutcome.response r) =
      { status := some r.status_code
        headers := r.headers
        success := true
        message := "Successfully connected to " ++ requestUrl svc } := by
  simp only [ping]
  rw [if_neg h]

theorem ping_response_raises (svc : ExampleService) (r : Response)
    (h : 400 ≤ r.status_code ∧ r.status_code < 600) :
    ping svc (GetOutcome.response r) =
      { status := some r.status_code
        headers := []
        success := false
        message := "Connection to " ++ requestUrl svc ++ " failed: "
          ++ httpErrorMessage r (requestUrl svc) } := by
  simp only [ping]
  rw [if_pos h, isTruthy_eq_false_of_ge h.1]
  simp

theorem parseParam_error_of_malformed (acc : List (String × ParamValue))
    (t : String) (h : malformedToken t) :
    ∃ e, parseParam acc t = Except.error e := by
  rcases h with h | h
  · have h2 : ¬ '=' ∈ t.data := by simpa using h
    exact ⟨"Invalid parameter format: " ++ t ++ ". Expected \x27key=value\x27",
      by simp [parseParam, h2]⟩
  · by_cases hc : '=' ∈ t.data
    · have h2 : pyStrip (String.mk (splitOnFirstEq t.data).1) = "" := h
      exact ⟨"Empty key in parameter: " ++ t, by simp [parseParam, hc, h2]⟩
    · exact ⟨"Invalid parameter format: " ++ t ++ ". Expected \x27key=value\x27",
        by simp [parseParam, hc]⟩

theorem parseParamsLoop_error_of_malformed (tokens : List String) (t : String)
    (ht : t ∈ tokens) (hbad : malformedToken t) :
    ∀ acc, ∃ e, parseParamsLoop acc tokens = Except.error e := by
  induction tokens with
  | nil => cases ht
  | cons p rest ih =>
    intro acc
    rcases List.mem_cons.mp ht with heq | hmem
    · obtain ⟨e, he⟩ := parseParam_error_of_malformed acc p (heq ▸ hbad)
      exact ⟨e, by simp [parseParamsLoop, he]⟩
    · cases hp : parseParam acc p with
      | error e => exact ⟨e, by simp [parseParamsLoop, hp]⟩
      | ok acc2 =>
        obtain ⟨e, he⟩ := ih hmem acc2
        exact ⟨e, by simp [parseParamsLoop, hp, he]⟩

theorem dropWhile_self (p : Char → Bool) (l : List Char) :
    (l.dropWhile p).dropWhile p = l.dropWhile p := by
  induction l with
  | nil => rfl
  | cons c cs ih =>
    by_cases hp : p c = true
    · simp [List.dropWhile_cons, hp, ih]
    · simp [List.dropWhile_cons, hp]

theorem getLast?_dropWhileReversed (p : Char → Bool) (l : List Char) :
    ((l.dropWhile p).reverse.getLast? = none) ∨
    (∃ c, (l.dropWhile p).reverse.getLast? = some c ∧ p c = false) := by
  have h := List.head?_dropWhile_not p l
  rw [List.getLast?_reverse]
  cases hh : (l.dropWhile p).head? with
  | none => exact Or.inl rfl
  | some c =>
    rw [hh] at h
    exact Or.inr ⟨c, rfl, h⟩

/-- C4: for every call to `ping()` whose underlying GET to `{base_url}/get`
yields a 2xx response, the returned envelope has `success = true`, `status` =
the response's status code, `headers` = the response's headers, and the
message `"Successfully connected to <url>"`. -/
theorem ping_success_envelope (svc : ExampleService) (r : Response)
    (h1 : 200 ≤ r.status_code) (h2 : r.status_code < 300) :
    ping svc (GetOutcome.response r) =
      { status := some r.status_code
        headers := r.headers
        success := true
        message := "Successfully connected to " ++ requestUrl svc } :=
  ping_response_ok svc r (by omega)

/-- Witness for C4: a concrete 200 response. -/
theorem ping_success_envelope_witness :
    ping (ExampleService.makeDefault "https://httpbin.org")
      (GetOutcome.response
        { status_code := 200
          headers := [("Content-Type", "application/json")]
          reason := "OK"
          body := "null" }) =
      { status := some 200
        headers := [("Content-Type", "application/json")]
        success := true
        message := "Successfully connected to https://httpbin.org/get" } :=
  (ping_success_envelope (ExampleService.makeDefault "https://httpbin.org")
    { status_code := 200
      headers := [("Content-Type", "application/json")]
      reason := "OK"
      body := "null" } (by decide) (by decide)).trans (by decide)

/-- C1 counterexample: the claim promises a failure envelope on every
non-2xx status and promises the response's headers when a response is
available. On a 304 response `raise_for_status` does not raise, so `ping`
returns `success = true`; and on a 404 response with non-empty headers the
envelope's headers are empty even though the response is available. -/
theorem ping_non2xx_claim_false :
    (¬ (200 ≤ 304 ∧ 304 < 300)) ∧
    (ping (ExampleService.makeDefault "https://httpbin.org")
      (GetOutcome.response
        { status_code := 304
          headers := [("Server", "nginx")]
          reason := "Not Modified"
          body := "" })).success = true ∧
    (ping (ExampleService.makeDefault "https://httpbin.org")
      (GetOutcome.response
        { status_code := 404
          headers := [("Server", "nginx")]
          reason := "NOT FOUND"
          body := "" })).headers = [] ∧
    [("Server", "nginx")] ≠ ([] : List (String × String)) :=
  ⟨by decide, by decide, by decide, by decide⟩

/-- C1 amended: if the GET raises a transport error, or returns a response
whose status lies in `[400, 600)` (so `raise_for_status` raises), `ping`
does not raise: it returns `success = false`, `status` = the response's
status code if a response is attached else null, `headers` = the empty
mapping (a 4xx/5xx response tests falsy, so its headers are never copied),
and the message `"Connection to <url> failed: <cause>"`. Statuses outside
`[400, 600)` — including non-2xx ones such as 304 — take the success
path. -/
theorem ping_failure_envelope (svc : ExampleService) (outcome : GetOutcome)
    (h : requestFails outcome) :
    ping svc outcome =
      { status := outcomeStatus outcome
        headers := []
        success := false
        message := "Connection to " ++ requestUrl svc ++ " failed: "
          ++ outcomeCause svc outcome } := by
  cases outcome with
  | transportError c => rfl
  | response r => exact ping_response_raises svc r h

/-- Witness for C1 amended: a concrete transport failure. -/
theorem ping_failure_envelope_witness :
    ping (ExampleService.makeDefault "https://httpbin.org")
      (GetOutcome.transportError "Network timeout") =
      { status := none
        headers := []
        success := false
        message := "Connection to https://httpbin.org/get failed: Network timeout" } :=
  (ping_failure_envelope (ExampleService.makeDefault "https://httpbin.org")
    (GetOutcome.transportError "Network timeout") trivial).trans (by decide)

/-- C2 counterexample: the claim promises that any non-2xx status raises.
On a 304 response `raise_for_status` does not raise and `get_with_params`
returns the decoded body as a result value. -/
theorem get_with_params_non2xx_claim_false :
    get_with_params (ExampleService.makeDefault "https://httpbin.org")
      (fun s => s) none
      (GetOutcome.response
        { status_code := 304
          headers := []
          reason := "Not Modified"
          body := "null" }) = Except.ok "null" ∧
    (¬ (200 ≤ 304 ∧ 304 < 300)) :=
  ⟨by decide, by decide⟩

/-- C2 amended: on a 2xx response `get_with_params` returns the decoded
JSON body unchanged (for every decoder); on a transport failure or a status
in `[400, 600)` it raises an error whose message is `"GET request to <url>
failed: <cause>"`, containing the target URL and the underlying cause.
Statuses outside `[400, 600)` that are not 2xx (such as 304) also return
the decoded body rather than raising. -/
theorem get_with_params_policy {α : Type} (svc : ExampleService)
    (decode : String → α) (params : Option (List (String × ParamValue)))
    (outcome : GetOutcome) :
    (∀ r, outcome = GetOutcome.response r → 200 ≤ r.status_code →
      r.status_code < 300 →
      get_with_params svc decode params outcome = Except.ok (decode r.body)) ∧
    (requestFails outcome →
      get_with_params svc decode params outcome =
        Except.error ("GET request to " ++ requestUrl svc ++ " failed: "
          ++ outcomeCause svc outcome)) := by
  constructor
  · rintro r rfl h1 h2
    simp only [get_with_params]
    rw [if_neg (by omega)]
  · intro hf
    cases outcome with
    | transportError c => rfl
    | response r =>
      simp only [get_with_params, outcomeCause]
      rw [if_pos (show 400 ≤ r.status_code ∧ r.status_code < 600 from hf)]

/-- Witness for C2 amended: a concrete 200 response with a JSON body, and a
concrete transport failure. -/
theorem get_with_params_policy_witness :
    get_with_params (ExampleService.makeDefault "https://httpbin.org")
      (fun s => s) none
      (GetOutcome.response
        { status_code := 200, headers := [], reason := "OK", body := "null" }) =
      Except.ok "null" ∧
    get_with_params (ExampleService.makeDefault "https://httpbin.org")
      (fun s => s) none (GetOutcome.transportError "Connection error") =
      Except.error "GET request to https://httpbin.org/get failed: Connection error" := by
  constructor
  · exact ((get_with_params_policy (ExampleService.makeDefault "https://httpbin.org")
      (fun s => s) none (GetOutcome.response
        { status_code := 200, headers := [], reason := "OK", body := "null" })).1
      _ rfl (by decide) (by decide)).trans (by decide)
  · exact ((get_with_params_policy (ExampleService.makeDefault "https://httpbin.org")
      (fun s => s) none (GetOutcome.transportError "Connection error")).2
      trivial).trans (by decide)

/-- C10: the result of `ping` never depends on the response body: for any
two 2xx responses that agree on status code and headers but have arbitrary
(possibly non-JSON) bodies, `ping` returns identical envelopes with
`success = true`. -/
theorem ping_ignores_body (svc : ExampleService) (r1 r2 : Response)
    (hs : r1.status_code = r2.status_code) (hh : r1.headers = r2.headers)
    (h1 : 200 ≤ r1.status_code) (h2 : r1.status_code < 300) :
    ping svc (GetOutcome.response r1) = ping svc (GetOutcome.response r2) ∧
    (ping svc (GetOutcome.response r1)).success = true := by
  have e1 := ping_response_ok svc r1 (by omega)
  have e2 := ping_response_ok svc r2 (by omega)
  constructor
  · rw [e1, e2, hs, hh]
  · rw [e1]

/-- Witness for C10: two concrete 200 responses whose bodies differ (one of
them not valid JSON) yield identical success envelopes. -/
theorem ping_ignores_body_witness :
    ping (ExampleService.makeDefault "https://httpbin.org")
      (GetOutcome.response
        { status_code := 200, headers := [("Content-Type", "text/html")]
          reason := "OK", body := "null" }) =
    ping (ExampleService.makeDefault "https://httpbin.org")
      (GetOutcome.response
        { status_code := 200, headers := [("Content-Type", "text/html")]
          reason := "OK", body := "<html>not json</html>" }) ∧
    (ping (ExampleService.makeDefault "https://httpbin.org")
      (GetOutcome.response
        { status_code := 200, headers := [("Content-Type", "text/html")]
          reason := "OK", body := "null" })).success = true :=
  ping_ignores_body (ExampleService.makeDefault "https://httpbin.org")
    { status_code := 200, headers := [("Content-Type", "text/html")]
      reason := "OK", body := "null" }
    { status_code := 200, headers := [("Content-Type", "text/html")]
      reason := "OK", body := "<html>not json</html>" }
    (by decide) (by decide) (by decide) (by decide)

theorem splitOnFirstEq_append (k v : List Char) (h : '=' ∉ k) :
    splitOnFirstEq (k ++ '=' :: v) = (k, v) := by
  induction k with
  | nil => simp [splitOnFirstEq]
  | cons c cs ih =>
    have hc : ¬ c = '=' := fun he => h (he ▸ List.mem_cons_self c cs)
    have hcs : '=' ∉ cs := fun hm => h (List.mem_cons_of_mem c hm)
    simp [splitOnFirstEq, hc, ih hcs]

theorem mk_data_eq (s : String) : String.mk s.data = s := rfl

/-- C3: for every well-formed token, value coercion is total and
deterministic and tries, in this fixed order: boolean for exactly
`"true"`/`"false"` case-insensitively, else integer for all-digit values,
else float for values with exactly one dot and digit-only remainder, else
the string itself; with the five concrete examples of the claim
(`coerceValue` and `pyFloat` etc. are total Lean functions, so parsing of
well-formed tokens is total and deterministic by construction). -/
theorem parse_params_coercion_order :
    (∀ value : String,
      ((pyLower value = "true" ∨ pyLower value = "false") →
        coerceValue value = ParamValue.boolean (pyLower value = "true")) ∧
      (pyLower value ≠ "true" → pyLower value ≠ "false" →
        isDigitStr value = true →
        coerceValue value = ParamValue.int (pyInt value)) ∧
      (pyLower value ≠ "true" → pyLower value ≠ "false" →
        isDigitStr value = false →
        isDigitStr (removeDots value) = true → countDots value = 1 →
        coerceValue value = ParamValue.float (pyFloat value)) ∧
      (pyLower value ≠ "true" → pyLower value ≠ "false" →
        isDigitStr value = false →
        (isDigitStr (removeDots value) = false ∨ countDots value ≠ 1) →
        coerceValue value = ParamValue.str value)) ∧
    parse_params ["a=true"] = Except.ok [("a", ParamValue.boolean true)] ∧
    parse_params ["a=FALSE"] = Except.ok [("a", ParamValue.boolean false)] ∧
    parse_params ["a=42"] = Except.ok [("a", ParamValue.int 42)] ∧
    parse_params ["a=3.14"] = Except.ok [("a", ParamValue.float (314 / 100))] ∧
    parse_params ["a=hello"] = Except.ok [("a", ParamValue.str "hello")] := by
  refine ⟨?_, by decide, by decide, by decide, ?_, by decide⟩
  · intro value
    refine ⟨?_, ?_, ?_, ?_⟩
    · rintro (h | h) <;> simp [coerceValue, h]
    · intro h1 h2 h3
      simp [coerceValue, h1, h2, h3]
    · intro h1 h2 h3 h4 h5
      simp [coerceValue, h1, h2, h3, h4, h5]
    · intro h1 h2 h3 h4
      rcases h4 with h4 | h4 <;> simp [coerceValue, h1, h2, h3, h4]
  · have h : pyFloat "3.14" = 314 / 100 := by
      simp +decide [pyFloat, digitsToNat]
      norm_num
    have h2 : pyStrip (String.mk (splitOnFirstEq ['a', '=', '3', '.', '1', '4']).2)
        = "3.14" := by decide
    simp +decide [parse_params, parseParamsLoop, parseParam, coerceValue, dictInsert]
    rw [h2, h]

/-- Witness for C3: the order conjunct applied at concrete values. -/
theorem parse_params_coercion_order_witness :
    coerceValue "TRue" = ParamValue.boolean true ∧
    coerceValue "007" = ParamValue.int 7 ∧
    coerceValue "hello" = ParamValue.str "hello" := by
  refine ⟨?_, ?_, ?_⟩
  · exact ((parse_params_coercion_order.1 "TRue").1 (Or.inl (by decide))).trans
      (by decide)
  · exact ((parse_params_coercion_order.1 "007").2.1 (by decide) (by decide)
      (by decide)).trans (by decide)
  · exact ((parse_params_coercion_order.1 "hello").2.2.2 (by decide) (by decide)
      (by decide) (Or.inr (by decide))).trans (by decide)

/-- C9: `parse_params` strips leading and trailing whitespace from both the
key and the value of every token before the empty-key check and the type
coercion: a token built from any key part (without `'='`) and any value
part is parsed by first stripping both, rejecting a key that strips to
empty, and coercing the stripped value; in particular `" a = 42 "` yields
`a = 42` and `"  =v"` is rejected as having an empty key. -/
theorem parse_params_strip_semantics :
    (∀ k v : String, '=' ∉ k.data →
      parse_params [k ++ "=" ++ v] =
        (if pyStrip k = "" then
          Except.error ("Empty key in parameter: " ++ (k ++ "=" ++ v))
        else
          Except.ok [(pyStrip k, coerceValue (pyStrip v))])) ∧
    parse_params [" a = 42 "] = Except.ok [("a", ParamValue.int 42)] ∧
    parse_params ["  =v"] = Except.error "Empty key in parameter:   =v" := by
  refine ⟨?_, by decide, by decide⟩
  intro k v hk
  have hdata : (k ++ "=" ++ v).data = k.data ++ '=' :: v.data := by
    simp [String.data_append]
  have hsplit : splitOnFirstEq (k.data ++ '=' :: v.data) = (k.data, v.data) :=
    splitOnFirstEq_append k.data v.data hk
  have hmem : '=' ∈ (k ++ "=" ++ v).data := by
    rw [hdata]
    exact List.mem_append_right _ (List.mem_cons_self _ _)
  by_cases hkey : pyStrip k = ""
  · simp [parse_params, parseParamsLoop, parseParam, hmem, hdata, hsplit,
      mk_data_eq, hkey]
  · simp [parse_params, parseParamsLoop, parseParam, hmem, hdata, hsplit,
      mk_data_eq, hkey, dictInsert]

/-- Witness for C9: the general conjunct applied to the concrete key part
`" a "` and value part `" 42 "`. -/
theorem parse_params_strip_semantics_witness :
    parse_params [" a " ++ "=" ++ " 42 "] =
      Except.ok [(pyStrip " a ", coerceValue (pyStrip " 42 "))] := by
  have h := parse_params_strip_semantics.1 " a " " 42 " (by decide)
  rw [h]
  decide

/-- C5: if the `--params` list of a `get` invocation contains a token with
no `'='` or with an (after stripping) empty key, parameter parsing fails
and the dispatcher exits with code 1 before any network call:
`get_with_params` is never invoked. -/
theorem malformed_params_no_request {α : Type} (svc : ExampleService)
    (decode : String → α) (tokens : List String) (outcome : GetOutcome)
    (t : String) (ht : t ∈ tokens) (hbad : malformedToken t) :
    dispatchGet svc decode tokens outcome = (1, false) ∧
    main TopLevelEvent.completes svc decode (Command.getCmd tokens) outcome = 1 := by
  obtain ⟨e, he⟩ := parseParamsLoop_error_of_malformed tokens t ht hbad []
  have hd : dispatchGet svc decode tokens outcome = (1, false) := by
    simp [dispatchGet, parse_params, he]
  exact ⟨hd, by simp [main, hd]⟩

/-- Witness for C5: the token `"=v"` (empty key) never reaches the
service. -/
theorem malformed_params_no_request_witness :
    dispatchGet (ExampleService.makeDefault "https://httpbin.org") (fun s => s)
      ["=v"] (GetOutcome.transportError "unused") = (1, false) ∧
    main TopLevelEvent.completes (ExampleService.makeDefault "https://httpbin.org")
      (fun s => s) (Command.getCmd ["=v"]) (GetOutcome.transportError "unused") = 1 :=
  malformed_params_no_request (ExampleService.makeDefault "https://httpbin.org")
    (fun s => s) ["=v"] (GetOutcome.transportError "unused") "=v"
    (List.mem_cons_self _ _) (Or.inr (by decide))

/-- C6: the constructor stores the base URL with trailing slashes removed
(`"https://x/"` becomes `"https://x"`), the stored base URL never ends in
`'/'`, and the URL both `ping` and `get_with_params` request is exactly
`{base_url}/get`. -/
theorem base_url_normalization (b : String) (t : Int) :
    (ExampleService.make b t).base_url = pyRstripChar b '/' ∧
    (ExampleService.make "https://x/" t).base_url = "https://x" ∧
    (ExampleService.make b t).base_url.data.getLast? ≠ some '/' ∧
    requestUrl (ExampleService.make b t) =
      (ExampleService.make b t).base_url ++ "/get" := by
  refine ⟨rfl, by show ("https://x" : String) = "https://x"; rfl, ?_, rfl⟩
  intro hlast
  have hlast2 :
      ((b.data.reverse.dropWhile (fun d => d = '/')).reverse).getLast? =
        some '/' := hlast
  rcases getLast?_dropWhileReversed (fun d => d = '/') b.data.reverse with h | ⟨c, hc, hpc⟩
  · rw [hlast2] at h
    cases h
  · rw [hlast2] at hc
    cases hc
    simp at hpc

/-- C7: the dispatcher maps outcomes to exit codes exactly: a top-level
interrupt yields 130, any other uncaught error yields 1, no subcommand
yields 1, `ping` yields 0 iff the printed envelope has `success = true`
(else 1), and `get` yields 0 when the request succeeds and 1 on a
parameter-parse or request error. -/
theorem main_exit_code_map {α : Type} (svc : ExampleService)
    (decode : String → α) (cmd : Command) (outcome : GetOutcome) (msg : String) :
    main TopLevelEvent.interrupt svc decode cmd outcome = 130 ∧
    main (TopLevelEvent.failure msg) svc decode cmd outcome = 1 ∧
    main TopLevelEvent.completes svc decode Command.noCommand outcome = 1 ∧
    (main TopLevelEvent.completes svc decode Command.pingCmd outcome = 0 ↔
      (ping svc outcome).success = true) ∧
    (main TopLevelEvent.completes svc decode Command.pingCmd outcome = 1 ↔
      (ping svc outcome).success = false) ∧
    (∀ tokens e, parse_params tokens = Except.error e →
      main TopLevelEvent.completes svc decode (Command.getCmd tokens) outcome = 1) ∧
    (∀ tokens ps, parse_params tokens = Except.ok ps →
      (∀ x : α, get_with_params svc decode
          (if ps = [] then none else some ps) outcome = Except.ok x →
        main TopLevelEvent.completes svc decode (Command.getCmd tokens) outcome = 0) ∧
      (∀ e, get_with_params svc decode
          (if ps = [] then none else some ps) outcome = Except.error e →
        main TopLevelEvent.completes svc decode (Command.getCmd tokens) outcome = 1)) := by
  refine ⟨rfl, rfl, rfl, ?_, ?_, ?_, ?_⟩
  · by_cases h : (ping svc outcome).success <;>
      simp [main, handle_ping_command, h]
  · by_cases h : (ping svc outcome).success <;>
      simp [main, handle_ping_command, h]
  · intro tokens e he
    simp [main, dispatchGet, he]
  · intro tokens ps hps
    constructor
    · intro x hx
      simp [main, dispatchGet, hps, handle_get_command, hx]
    · intro e he
      simp [main, dispatchGet, hps, handle_get_command, he]

/-- Witness for C7: a `get` invocation whose request fails exits 1, and an
interrupted invocation exits 130. -/
theorem main_exit_code_map_witness :
    main TopLevelEvent.completes (ExampleService.makeDefault "https://httpbin.org")
      (fun s => s) (Command.getCmd ["k=1"]) (GetOutcome.transportError "boom") = 1 ∧
    main TopLevelEvent.interrupt (ExampleService.makeDefault "https://httpbin.org")
      (fun s => s) Command.pingCmd (GetOutcome.transportError "boom") = 130 := by
  constructor
  · exact ((main_exit_code_map (ExampleService.makeDefault "https://httpbin.org")
      (fun s => s) Command.pingCmd (GetOutcome.transportError "boom")
      "x").2.2.2.2.2.2 ["k=1"] [("k", ParamValue.int 1)] (by decide)).2
      "GET request to https://httpbin.org/get failed: boom" (by decide)
  · exact (main_exit_code_map (ExampleService.makeDefault "https://httpbin.org")
      (fun s => s) Command.pingCmd (GetOutcome.transportError "boom") "x").1

/-- C8 counterexample: the constructor performs no validation, so it
accepts `timeout = 0` and stores a non-positive timeout. -/
theorem timeout_invariant_claim_false :
    (ExampleService.make "https://httpbin.org" 0).timeout = 0 ∧
    ¬ (0 < (ExampleService.make "https://httpbin.org" 0).timeout) :=
  ⟨rfl, by decide⟩

/-- C8 amended: the constructor stores the given timeout unvalidated, so
`timeout > 0` holds exactly when the caller passes a positive value; the
default timeout is 30, which is positive. -/
theorem timeout_stored_unvalidated (b : String) (t : Int) :
    (ExampleService.make b t).timeout = t ∧
    (ExampleService.makeDefault b).timeout = 30 ∧
    0 < (ExampleService.makeDefault b).timeout :=
  ⟨rfl, rfl, by show (0 : Int) < 30; decide⟩

end AIStarter
